import Mathlib

/-!
Shallow embedding of `src/pyforge/note.py`: the display-mode resolver and the
content renderer (display), together with the displayable classes the claims
are about (Figure, Title, Citation).  Paths are modelled as lists of
components (the lexical view `pathlib` takes for `relative_to`); the process
environment, the `lru_cache` memo of `get_display_config` and the file system
are threaded explicitly as state.
-/

namespace PyForge

/-- A filesystem path as its list of components (pathlib's `parts`,
omitting `.` and empty components). -/
abbrev FPath := List String

/-- Split a character list at `/` separators. -/
def splitSlash : List Char → List Char → List String
  | [], cur => [String.mk cur.reverse]
  | c :: rest, cur =>
    if c = '/' then String.mk cur.reverse :: splitSlash rest []
    else splitSlash rest (c :: cur)

/-- Python `Path(s)` for a string `s`: split on `/`, drop empty and `.` components. -/
def mkPath (s : String) : FPath :=
  (splitSlash s.data []).filter (fun c => !(c == "") && !(c == "."))

/-- Python `p.parent`: drop the last component. -/
def FPath.parent (p : FPath) : FPath := p.dropLast

/-- Python `str(p)` for a pure path: components joined by `/`; an empty part list
prints as `.` (pathlib). -/
def pathToString (p : FPath) : String :=
  if p = [] then "." else String.intercalate "/" p

/-- Python `p.relative_to(base)`: succeeds iff `base`'s components are a prefix of
`p`'s (pathlib's lexical rule), returning the remaining components;
otherwise `relative_to` raises `ValueError`, modelled as `none`. -/
def relativeTo (p base : FPath) : Option FPath :=
  if base.isPrefixOf p then some (p.drop base.length) else none

/-- Python `DisplayMode` enum from note.py. -/
inductive DisplayMode
  | markdown
  | streamlit
  | python
deriving DecidableEq, Repr

/-- Python `_DisplayConfig` dataclass: mode plus optional output path. -/
structure DisplayConfig where
  mode : DisplayMode
  output_path : Option FPath
deriving DecidableEq, Repr

/-- Process environment state read by note.py: the `OUTPUT_MARKDOWN_PATH`
environment variable (a string when set) and whether `st.runtime.exists()`
reports a streamlit runtime. -/
structure Env where
  outputMarkdownPath : Option String
  streamlitRuntimeExists : Bool
deriving DecidableEq, Repr

/-- Filesystem state: which paths exist, and file contents (association
list; a path absent from `contents` reads as the empty string). -/
structure Fs where
  existing : List FPath
  contents : List (FPath × String)
deriving DecidableEq, Repr

def Fs.pathExists (fs : Fs) (p : FPath) : Bool := fs.existing.contains p

def Fs.read (fs : Fs) (p : FPath) : String :=
  match fs.contents.lookup p with
  | some s => s
  | none => ""

/-- Python `open(p, "a"); f.write(s)`: append `s` to the file at `p`. -/
def Fs.append (fs : Fs) (p : FPath) (s : String) : Fs :=
  { existing := p :: fs.existing,
    contents := (p, fs.read p ++ s) :: fs.contents }

/-- Python `p.touch()`: create the (empty) file at `p`. -/
def Fs.touch (fs : Fs) (p : FPath) : Fs :=
  { fs with existing := p :: fs.existing }

/-- All nonempty prefixes of a path: the directories
`p.mkdir(parents=True, exist_ok=True)` creates. -/
def prefixesOf (p : FPath) : List FPath :=
  (List.range p.length).map (fun i => p.take (i + 1))

/-- Python `p.mkdir(parents=True, exist_ok=True)`. -/
def Fs.mkdirParents (fs : Fs) (p : FPath) : Fs :=
  { fs with existing := prefixesOf p ++ fs.existing }

/-- Process state: environment, the `lru_cache` memo of
`get_display_config`, and the filesystem. -/
structure ProcState where
  env : Env
  cache : Option DisplayConfig
  fs : Fs
deriving DecidableEq, Repr

/-- Python `set_markdown_display_mode(output_path)`: store the string in the
environment variable.  (It does not touch the `lru_cache` memo.) -/
def set_markdown_display_mode (st : ProcState) (output_path : String) : ProcState :=
  { st with env := { st.env with outputMarkdownPath := some output_path } }

/-- Python `unset_markdown_display_mode()`: `os.environ.pop(OUTPUT_MARKDOWN_PATH, None)`.
(It does not touch the `lru_cache` memo either.) -/
def unset_markdown_display_mode (st : ProcState) : ProcState :=
  { st with env := { st.env with outputMarkdownPath := none } }

/-- The body of `get_display_config` (before memoization): note the guard is
`if os.getenv(OUTPUT_MARKDOWN_PATH):`, Python truthiness, so an empty string
counts as unset.  Creates the output file (with parent directories) when it
does not exist. -/
def computeDisplayConfig (env : Env) (fs : Fs) : DisplayConfig × Fs :=
  match env.outputMarkdownPath with
  | some s =>
    if s ≠ "" then
      let output_path := mkPath s
      let fs' :=
        if fs.pathExists output_path then fs
        else (fs.mkdirParents output_path.parent).touch output_path
      (⟨DisplayMode.markdown, some output_path⟩, fs')
    else if env.streamlitRuntimeExists then (⟨DisplayMode.streamlit, none⟩, fs)
    else (⟨DisplayMode.python, none⟩, fs)
  | none =>
    if env.streamlitRuntimeExists then (⟨DisplayMode.streamlit, none⟩, fs)
    else (⟨DisplayMode.python, none⟩, fs)

/-- Python `get_display_config()` with its `@lru_cache`: the first call computes
and memoizes, later calls return the memo unconditionally. -/
def get_display_config (st : ProcState) : DisplayConfig × ProcState :=
  match st.cache with
  | some c => (c, st)
  | none =>
    let c := (computeDisplayConfig st.env st.fs).1
    let fs' := (computeDisplayConfig st.env st.fs).2
    (c, { st with cache := some c, fs := fs' })

/-- Exceptions the markdown-rendering paths can raise: `KeyError` from
`os.environ[...]`, `ValueError` from `Path.relative_to`. -/
inductive RenderError
  | keyError (key : String)
  | valueError (msg : String)
deriving DecidableEq, Repr

/-- Python `Figure`: stored fields only, no validation in `__init__`. -/
structure Figure where
  path : FPath
  caption : String
  label : Option String
deriving DecidableEq, Repr

/-- Python `Title`. -/
structure Title where
  text : String
  label : Option String
deriving DecidableEq, Repr

/-- Python `Citation`. -/
structure Citation where
  id : String
  text : Option String
deriving DecidableEq, Repr

/-- Python `f"{{#{label}}}" if self.label else ""`: Python truthiness, so both
`None` and the empty string suppress the suffix. -/
def labelText (label : Option String) : String :=
  match label with
  | some l => if l ≠ "" then "\x7b#" ++ l ++ "\x7d" else ""
  | none => ""

/-- Python `Figure.display_markdown`: reads `os.environ[OUTPUT_MARKDOWN_PATH]`
directly (raising `KeyError` when absent), makes the stored path relative
to the output file's parent (raising `ValueError` when impossible), and
formats `![caption](relative_path){#label}`. -/
def Figure.display_markdown (env : Env) (f : Figure) : Except RenderError String :=
  match env.outputMarkdownPath with
  | none => .error (.keyError "OUTPUT_MARKDOWN_PATH")
  | some s =>
    match relativeTo f.path (mkPath s).parent with
    | none => .error (.valueError "relative_to")
    | some rel => .ok ("![" ++ f.caption ++ "](" ++ pathToString rel ++ ")" ++ labelText f.label)

/-- Python `self.text.count("#")`: number of occurrences of the character `#`. -/
def countHash (s : String) : Nat := s.toList.count '#'

/-- Python `s.startswith(pre)` on the character lists. -/
def strStartsWith (s pre : String) : Bool := pre.toList.isPrefixOf s.toList

/-- Python `Title.level`: total `#` count when the text starts with `#`, else 0. -/
def Title.level (t : Title) : Nat :=
  if strStartsWith t.text "#" then countHash t.text else 0

/-- Python `Title.display_markdown`: `f"{self.text} {label_text}"`. -/
def Title.display_markdown (t : Title) : String :=
  t.text ++ " " ++ labelText t.label

/-- Python `Citation.display_markdown`: `f"[@{self.id}]"`. -/
def Citation.display_markdown (c : Citation) : String :=
  "[@" ++ c.id ++ "]"

/-- One positional argument of `display`: a plain string or a
`MultiDisplayer` (the variants the claims need). -/
inductive Item
  | text (s : String)
  | figure (f : Figure)
  | title (t : Title)
  | citation (c : Citation)
deriving DecidableEq, Repr

/-- What the markdown/python branch of the `display` loop appends for one
item: `item.display_markdown()` for a `MultiDisplayer`, `str(item)` for
text.  Only the Figure variant can raise. -/
def renderMarkdownItem (env : Env) : Item → Except RenderError String
  | .text s => .ok s
  | .figure f => f.display_markdown env
  | .title t => .ok t.display_markdown
  | .citation c => .ok c.display_markdown

/-- The `display` loop in markdown/python mode: for each item append its
rendering and then `"\n"` to the `result` buffer; the first exception
aborts the whole loop. -/
def buildResult (env : Env) : List Item → Except RenderError (List String)
  | [] => .ok []
  | item :: rest =>
    match renderMarkdownItem env item with
    | .error e => .error e
    | .ok s =>
      match buildResult env rest with
      | .error e => .error e
      | .ok tail => .ok (s :: "\n" :: tail)

/-- Python's `sep.join(parts)`. -/
def joinSep (sep : String) : List String → String
  | [] => ""
  | [a] => a
  | a :: rest => a ++ sep ++ joinSep sep rest

/-- Python `display(*content, mode=..., output_path=...)`: resolve the config
(memoized), override mode/output path from the keyword arguments, run the
item loop, and in markdown/python mode join the buffer with `"\n\n"` and
append it to the output file when a path is active.  Streamlit mode only
performs widget side effects and returns the empty string. -/
def display (st : ProcState) (content : List Item)
    (mode : Option DisplayMode) (output_path : Option FPath) :
    Except RenderError String × ProcState :=
  let cfg := (get_display_config st).1
  let st1 := (get_display_config st).2
  let display_mode := match mode with | some m => m | none => cfg.mode
  let out_path := match output_path with | some p => some p | none => cfg.output_path
  if display_mode = DisplayMode.streamlit then (.ok "", st1)
  else
    match buildResult st1.env content with
    | .error e => (.error e, st1)
    | .ok parts =>
      let output_string := joinSep "\n\n" parts
      match out_path with
      | some p => (.ok output_string, { st1 with fs := st1.fs.append p output_string })
      | none => (.ok output_string, st1)

/-- Python `Figure.from_matplotlib`: the output path is
`Path(os.environ.get(OUTPUT_MARKDOWN_PATH, Path.cwd()))`, so it falls back
to the working directory when the variable is absent.  A `pathlib.Path` is
always truthy in Python, so the `if not output_path: raise ValueError`
guard can never fire; it is modelled by the always-false `pathIsFalsy`.
The figure is saved under `output_path.parent / "figures" / filename`. -/
def pathIsFalsy (_ : FPath) : Bool := false

def Figure.from_matplotlib (env : Env) (cwd : FPath) (fs : Fs)
    (filename caption : String) (label : Option String) :
    Except RenderError Figure × Fs :=
  let output_path := match env.outputMarkdownPath with
    | some s => mkPath s
    | none => cwd
  if pathIsFalsy output_path then
    (.error (.valueError "No markdown output path set. Call set_markdown_display_mode first."),
     fs)
  else
    let figures_dir := output_path.parent ++ ["figures"]
    let filepath := figures_dir ++ [filename]
    (.ok ⟨filepath, caption, label⟩, (fs.touch figures_dir).touch filepath)

/-! Spec-side definitions, used to compare the code's behaviour with the
spec's words. -/

/-- The spec's "inputs joined by a blank-line separator": a plain
`"\n\n".join`. -/
def specBlankLineJoin (ts : List String) : String := joinSep "\n\n" ts

/-- The spec's "number of leading `#` marker characters". -/
def leadingHashCount (s : String) : Nat :=
  (s.toList.takeWhile (fun c => c == '#')).length

/-! Infrastructure lemmas. -/

theorem computeDisplayConfig_contents (env : Env) (fs : Fs) :
    (computeDisplayConfig env fs).2.contents = fs.contents := by
  unfold computeDisplayConfig
  cases env.outputMarkdownPath <;> dsimp only <;> (repeat' split) <;> rfl

theorem computeDisplayConfig_set (env : Env) (fs : Fs) (s : String)
    (h : env.outputMarkdownPath = some s) (hs : s ≠ "") :
    (computeDisplayConfig env fs).1 = ⟨DisplayMode.markdown, some (mkPath s)⟩ := by
  simp [computeDisplayConfig, h, hs]

theorem get_display_config_env (st : ProcState) :
    (get_display_config st).2.env = st.env := by
  unfold get_display_config
  cases st.cache <;> simp

theorem get_display_config_cache (st : ProcState) :
    (get_display_config st).2.cache = some (get_display_config st).1 := by
  unfold get_display_config
  cases h : st.cache <;> simp [h]

theorem get_display_config_contents (st : ProcState) :
    (get_display_config st).2.fs.contents = st.fs.contents := by
  unfold get_display_config
  cases st.cache <;> simp [computeDisplayConfig_contents]

theorem get_display_config_of_cached (st : ProcState) (c : DisplayConfig)
    (h : st.cache = some c) : get_display_config st = (c, st) := by
  simp [get_display_config, h]

theorem Fs.read_append_self (fs : Fs) (p : FPath) (s : String) :
    (fs.append p s).read p = fs.read p ++ s := by
  simp [Fs.read, Fs.append]

theorem Fs.read_congr (fs fs' : Fs) (h : fs.contents = fs'.contents) (p : FPath) :
    fs.read p = fs'.read p := by
  simp [Fs.read, h]

theorem display_env (st : ProcState) (c : List Item) (m : Option DisplayMode)
    (op : Option FPath) : (display st c m op).2.env = st.env := by
  unfold display
  dsimp only
  split
  · exact get_display_config_env st
  · split
    · exact get_display_config_env st
    · split <;> exact get_display_config_env st

theorem display_cache (st : ProcState) (c : List Item) (m : Option DisplayMode)
    (op : Option FPath) :
    (display st c m op).2.cache = some (get_display_config st).1 := by
  unfold display
  dsimp only
  split
  · exact get_display_config_cache st
  · split
    · exact get_display_config_cache st
    · split <;> exact get_display_config_cache st

/-- The buffer the display loop builds for text-only content: each input is
followed by its own `"\n"` entry. -/
def interleaveNl : List String → List String
  | [] => []
  | t :: ts => t :: "\n" :: interleaveNl ts

theorem buildResult_texts (env : Env) (ts : List String) :
    buildResult env (ts.map Item.text) = .ok (interleaveNl ts) := by
  induction ts with
  | nil => rfl
  | cons t ts ih => simp [buildResult, renderMarkdownItem, interleaveNl, ih]

theorem append_five (s : String) :
    ("\n\n" : String) ++ ("\n" ++ ("\n\n" ++ s)) = "\n\n\n\n\n" ++ s := by
  rw [← String.append_assoc, ← String.append_assoc]
  rfl

theorem joinSep_interleaveNl (ts : List String) (h : ts ≠ []) :
    joinSep "\n\n" (interleaveNl ts) = joinSep "\n\n\n\n\n" ts ++ "\n\n\n" := by
  induction ts with
  | nil => exact absurd rfl h
  | cons t ts ih =>
    cases ts with
    | nil =>
      simp only [interleaveNl, joinSep]
      rw [String.append_assoc]
      rfl
    | cons t2 ts2 =>
      have ih' : t2 ++ "\n\n" ++ joinSep "\n\n" ("\n" :: interleaveNl ts2)
          = joinSep "\n\n\n\n\n" (t2 :: ts2) ++ "\n\n\n" := by
        have h2 := ih (by simp)
        simpa only [interleaveNl, joinSep] using h2
      simp only [interleaveNl, joinSep]
      rw [ih']
      simp only [String.append_assoc]
      rw [append_five]

/-- Auxiliary: the number of leading `#` characters never exceeds the total
number of `#` characters. -/
theorem takeWhile_hash_length_le_count (l : List Char) :
    (l.takeWhile (fun c => c == '#')).length ≤ l.count '#' := by
  induction l with
  | nil => simp
  | cons c l ih =>
    by_cases hc : c = '#'
    · subst hc
      simp only [List.takeWhile_cons, List.count_cons]
      simp only [beq_self_eq_true, if_true, List.length_cons]
      omega
    · simp only [List.takeWhile_cons, List.count_cons]
      have hbe : (c == '#') = false := beq_eq_false_iff_ne.mpr hc
      simp [hbe, hc]

/-! Claim theorems. -/

/-- C1 counterexample: in PlainPython mode, `display` on the two plain-text
items "a" and "b" returns `"a\n\n\n\n\nb\n\n\n"`, which is not the two
inputs joined by a blank-line separator (`"a\n\nb"`): the loop pushes an
extra `"\n"` entry after every item before the `"\n\n"` join, so five
newlines stand between consecutive entries and three trail the last. -/
theorem C1_counterexample :
    (display ⟨⟨none, false⟩, none, ⟨[], []⟩⟩ [Item.text "a", Item.text "b"] none none).1
      = Except.ok "a\n\n\n\n\nb\n\n\n" ∧
    "a\n\n\n\n\nb\n\n\n" ≠ specBlankLineJoin ["a", "b"] := by
  constructor
  · rfl
  · decide

/-- C1 (amended): for every nonempty sequence of plain-text items rendered
by `display` in markdown or python mode, the returned string is the inputs
joined by a five-newline separator with a trailing `"\n\n\n"` (each input
occurs in original order, but with an extra `"\n"` buffer entry per item
around the blank-line join). -/
theorem C1_amended (st : ProcState) (ts : List String) (m : DisplayMode)
    (hm : m ≠ DisplayMode.streamlit) (hne : ts ≠ []) :
    (display st (ts.map Item.text) (some m) none).1 =
      Except.ok (joinSep "\n\n\n\n\n" ts ++ "\n\n\n") := by
  have hb := buildResult_texts (get_display_config st).2.env ts
  unfold display
  dsimp only
  rw [if_neg hm, hb]
  dsimp only
  cases hp : (get_display_config st).1.output_path <;>
    simp [hp, joinSep_interleaveNl ts hne]

/-- C1 amended witness: at a concrete state and the inputs "a" and "b" in
python mode. -/
theorem C1_amended_witness :
    (display ⟨⟨none, false⟩, none, ⟨[], []⟩⟩ (["a", "b"].map Item.text)
        (some DisplayMode.python) none).1
      = Except.ok (joinSep "\n\n\n\n\n" ["a", "b"] ++ "\n\n\n") :=
  C1_amended ⟨⟨none, false⟩, none, ⟨[], []⟩⟩ ["a", "b"] DisplayMode.python
    (by decide) (by decide)

/-- C5 counterexample: `Title.level` counts every `#` character of the
text, not only the leading run: for the text `"# a #"` the code computes
level 2 while the number of leading `#` markers is 1. -/
theorem C5_counterexample :
    Title.level ⟨"# a #", none⟩ = 2 ∧ leadingHashCount "# a #" = 1 ∧ (2 : Nat) ≠ 1 := by
  refine ⟨by decide, by decide, by decide⟩

/-- C5 (amended): the derived level equals the total number of `#`
characters in the text when the text starts with `#` (and 0 otherwise); it
is bounded below by the leading-marker count; and the concrete example
holds as stated: a Title with text `"## Section"` and no label has level 2
and renders exactly `"## Section "`. -/
theorem C5_amended (t : Title) :
    t.level = (if strStartsWith t.text "#" then countHash t.text else 0) ∧
    (strStartsWith t.text "#" = true → leadingHashCount t.text ≤ t.level) ∧
    Title.level ⟨"## Section", none⟩ = 2 ∧
    Title.display_markdown ⟨"## Section", none⟩ = "## Section " := by
  refine ⟨rfl, ?_, by decide, by decide⟩
  intro hs
  unfold Title.level
  rw [if_pos hs]
  exact takeWhile_hash_length_le_count t.text.toList

/-- C5 amended witness: at the concrete Title `"## Section"`. -/
theorem C5_amended_witness :
    Title.level ⟨"## Section", none⟩ =
        (if strStartsWith "## Section" "#" then countHash "## Section" else 0) ∧
    (strStartsWith "## Section" "#" = true →
        leadingHashCount "## Section" ≤ Title.level ⟨"## Section", none⟩) ∧
    Title.level ⟨"## Section", none⟩ = 2 ∧
    Title.display_markdown ⟨"## Section", none⟩ = "## Section " :=
  C5_amended ⟨"## Section", none⟩

/-- C10: `Figure.display_markdown` reads the `OUTPUT_MARKDOWN_PATH`
environment variable unconditionally: when it is absent the rendering
raises `KeyError`, and a `display` call in auto-detected python mode fails
with that `KeyError` on a Figure item even when an explicit `output_path`
override is passed. -/
theorem C10_figure_requires_env (f : Figure) (env : Env)
    (he : env.outputMarkdownPath = none) :
    f.display_markdown env = Except.error (RenderError.keyError "OUTPUT_MARKDOWN_PATH") ∧
    ∀ st op, st.env = env → st.cache = none → env.streamlitRuntimeExists = false →
      (display st [Item.figure f] none (some op)).1
        = Except.error (RenderError.keyError "OUTPUT_MARKDOWN_PATH") := by
  have hf : f.display_markdown env
      = Except.error (RenderError.keyError "OUTPUT_MARKDOWN_PATH") := by
    simp [Figure.display_markdown, he]
  refine ⟨hf, ?_⟩
  intro st op hst hc hs
  have hcfg : get_display_config st
      = (⟨DisplayMode.python, none⟩,
         { st with cache := some ⟨DisplayMode.python, none⟩ }) := by
    simp [get_display_config, hc, computeDisplayConfig, hst, he, hs]
  unfold display
  rw [hcfg]
  dsimp only
  simp [buildResult, renderMarkdownItem, hst, hf]

/-- C10 witness: a concrete figure and state with the variable absent. -/
theorem C10_figure_requires_env_witness :
    Figure.display_markdown ⟨none, false⟩ ⟨["x.png"], "cap", none⟩
      = Except.error (RenderError.keyError "OUTPUT_MARKDOWN_PATH") ∧
    (display ⟨⟨none, false⟩, none, ⟨[], []⟩⟩ [Item.figure ⟨["x.png"], "cap", none⟩]
        none (some ["out.md"])).1
      = Except.error (RenderError.keyError "OUTPUT_MARKDOWN_PATH") := by
  have h := C10_figure_requires_env ⟨["x.png"], "cap", none⟩ ⟨none, false⟩ rfl
  exact ⟨h.1, h.2 ⟨⟨none, false⟩, none, ⟨[], []⟩⟩ ["out.md"] rfl rfl rfl⟩

/-- C2 counterexample: with the environment variable set (to the empty
string) and no streamlit runtime, `get_display_config` resolves python
mode, not markdown with that path: the guard tests Python truthiness of
the value, not its presence. -/
theorem C2_counterexample :
    (get_display_config ⟨⟨some "", false⟩, none, ⟨[], []⟩⟩).1
      = ⟨DisplayMode.python, none⟩ ∧
    DisplayMode.python ≠ DisplayMode.markdown :=
  ⟨rfl, by decide⟩

/-- C2 (amended): mode resolution follows the claimed algorithm with "set"
read as "set to a non-empty string": a non-empty path value resolves
markdown mode with that path, creating the file together with its parent
directories exactly when it does not exist (and leaving it empty);
otherwise a detected streamlit runtime resolves streamlit mode, and
otherwise python mode with no output path. -/
theorem C2_amended (st : ProcState) (hc : st.cache = none) :
    (∀ s, st.env.outputMarkdownPath = some s → s ≠ "" →
      (get_display_config st).1 = ⟨DisplayMode.markdown, some (mkPath s)⟩ ∧
      (get_display_config st).2.fs.pathExists (mkPath s) = true ∧
      (st.fs.pathExists (mkPath s) = false →
        (get_display_config st).2.fs
          = (st.fs.mkdirParents (FPath.parent (mkPath s))).touch (mkPath s) ∧
        (get_display_config st).2.fs.read (mkPath s) = st.fs.read (mkPath s)) ∧
      (st.fs.pathExists (mkPath s) = true → (get_display_config st).2.fs = st.fs)) ∧
    ((st.env.outputMarkdownPath = none ∨ st.env.outputMarkdownPath = some "") →
      st.env.streamlitRuntimeExists = true →
      (get_display_config st).1 = ⟨DisplayMode.streamlit, none⟩ ∧
      (get_display_config st).2.fs = st.fs) ∧
    ((st.env.outputMarkdownPath = none ∨ st.env.outputMarkdownPath = some "") →
      st.env.streamlitRuntimeExists = false →
      (get_display_config st).1 = ⟨DisplayMode.python, none⟩ ∧
      (get_display_config st).2.fs = st.fs) := by
  have h0 : get_display_config st
      = ((computeDisplayConfig st.env st.fs).1,
         { st with cache := some (computeDisplayConfig st.env st.fs).1,
                   fs := (computeDisplayConfig st.env st.fs).2 }) := by
    simp [get_display_config, hc]
  refine ⟨?_, ?_, ?_⟩
  · intro s hset hs
    by_cases hex : st.fs.pathExists (mkPath s) = true
    · simp [h0, computeDisplayConfig, hset, hs, hex]
    · simp only [Bool.not_eq_true] at hex
      have hmem : mkPath s ∉ st.fs.existing := by
        simpa [Fs.pathExists] using hex
      simp [h0, computeDisplayConfig, hset, hs, hmem, Fs.touch, Fs.pathExists,
        Fs.read, Fs.mkdirParents]
  · rintro (hset | hset) hsl <;>
      simp [h0, computeDisplayConfig, hset, hsl]
  · rintro (hset | hset) hsl <;>
      simp [h0, computeDisplayConfig, hset, hsl]

/-- C2 amended witness: resolving at a fresh state with the variable set to
`"out/doc.md"` on an empty filesystem, and at a fresh state with the
variable absent and no streamlit runtime. -/
theorem C2_amended_witness :
    ((get_display_config ⟨⟨some "out/doc.md", false⟩, none, ⟨[], []⟩⟩).1
        = ⟨DisplayMode.markdown, some (mkPath "out/doc.md")⟩ ∧
      (get_display_config ⟨⟨some "out/doc.md", false⟩, none, ⟨[], []⟩⟩).2.fs.pathExists
          (mkPath "out/doc.md") = true) ∧
    (get_display_config ⟨⟨none, false⟩, none, ⟨[], []⟩⟩).1
      = ⟨DisplayMode.python, none⟩ := by
  have h1 := (C2_amended ⟨⟨some "out/doc.md", false⟩, none, ⟨[], []⟩⟩ rfl).1
    "out/doc.md" rfl (by decide)
  have h2 := (C2_amended ⟨⟨none, false⟩, none, ⟨[], []⟩⟩ rfl).2.2 (Or.inl rfl) rfl
  exact ⟨⟨h1.1, h1.2.1⟩, h2.1⟩

/-- C3 counterexample: set the variable to `"old/doc.md"`, resolve once,
then clear it with `unset_markdown_display_mode`: the next
`get_display_config` still returns FileMarkdown mode with the old path
(the memo of the first resolution), even though the variable is gone. -/
theorem C3_counterexample :
    (get_display_config (unset_markdown_display_mode
        (get_display_config ⟨⟨some "old/doc.md", false⟩, none, ⟨[], []⟩⟩).2)).1
      = ⟨DisplayMode.markdown, some ["old", "doc.md"]⟩ ∧
    (unset_markdown_display_mode
        (get_display_config
          ⟨⟨some "old/doc.md", false⟩, none, ⟨[], []⟩⟩).2).env.outputMarkdownPath
      = none :=
  ⟨rfl, rfl⟩

/-- C3 (amended): clearing the variable removes it from the environment,
so a process that has not yet resolved a config auto-detects on its next
resolution; but once a resolution has been memoized,
`get_display_config` keeps returning the cached config — the old
FileMarkdown path included — because unsetting does not invalidate the
`lru_cache`. -/
theorem C3_amended (st : ProcState) :
    (unset_markdown_display_mode st).env.outputMarkdownPath = none ∧
    (∀ c, st.cache = some c →
      get_display_config (unset_markdown_display_mode st)
        = (c, unset_markdown_display_mode st)) ∧
    (st.cache = none →
      (get_display_config (unset_markdown_display_mode st)).1
        = if st.env.streamlitRuntimeExists then ⟨DisplayMode.streamlit, none⟩
          else ⟨DisplayMode.python, none⟩) := by
  refine ⟨rfl, ?_, ?_⟩
  · intro c hcc
    simp [get_display_config, unset_markdown_display_mode, hcc]
  · intro hcc
    cases hb : st.env.streamlitRuntimeExists <;>
      simp [get_display_config, unset_markdown_display_mode, hcc,
        computeDisplayConfig, hb]

/-- C3 amended witness: a state whose memo holds the markdown config keeps
returning it after unsetting; a state with an empty memo auto-detects
python mode after unsetting. -/
theorem C3_amended_witness :
    (unset_markdown_display_mode
        ⟨⟨some "old/doc.md", false⟩,
         some ⟨DisplayMode.markdown, some ["old", "doc.md"]⟩,
         ⟨[], []⟩⟩).env.outputMarkdownPath = none ∧
    get_display_config (unset_markdown_display_mode
        ⟨⟨some "old/doc.md", false⟩,
         some ⟨DisplayMode.markdown, some ["old", "doc.md"]⟩,
         ⟨[], []⟩⟩)
      = (⟨DisplayMode.markdown, some ["old", "doc.md"]⟩,
         unset_markdown_display_mode
           ⟨⟨some "old/doc.md", false⟩,
            some ⟨DisplayMode.markdown, some ["old", "doc.md"]⟩,
            ⟨[], []⟩⟩) ∧
    (get_display_config (unset_markdown_display_mode
        ⟨⟨some "old/doc.md", false⟩, none, ⟨[], []⟩⟩)).1
      = ⟨DisplayMode.python, none⟩ := by
  refine ⟨(C3_amended _).1, (C3_amended _).2.1 _ rfl, ?_⟩
  have h := (C3_amended ⟨⟨some "old/doc.md", false⟩, none, ⟨[], []⟩⟩).2.2 rfl
  simpa using h

/-- C4 (code bug evidence): with no markdown output path in the
environment, `Figure.from_matplotlib` does not fail: `os.environ.get`
defaults the output path to the current working directory, a `Path` that
is always truthy, so the `"No markdown output path set"` guard is
unreachable and the figure is silently saved under
`cwd.parent/figures/<filename>`. -/
theorem C4_silent_save (env : Env) (cwd : FPath) (fs : Fs)
    (filename caption : String) (label : Option String)
    (he : env.outputMarkdownPath = none) :
    (Figure.from_matplotlib env cwd fs filename caption label).1
      = Except.ok ⟨FPath.parent cwd ++ ["figures", filename], caption, label⟩ := by
  simp [Figure.from_matplotlib, he, pathIsFalsy]

/-- C4 witness: a concrete call with the variable absent returns a Figure
saved beside the working directory instead of raising. -/
theorem C4_silent_save_witness :
    (Figure.from_matplotlib ⟨none, false⟩ ["home", "user"] ⟨[], []⟩
        "x.png" "cap" none).1
      = Except.ok ⟨["home", "figures", "x.png"], "cap", none⟩ :=
  C4_silent_save ⟨none, false⟩ ["home", "user"] ⟨[], []⟩ "x.png" "cap" none rfl

/-- Auxiliary: when the resolved config is markdown with output path `p`
and a default-argument `display` call succeeds, the final filesystem is the
post-resolution filesystem with the returned string appended at `p`. -/
theorem display_ok_fs (st : ProcState) (p : FPath) (c : List Item) (o : String)
    (hcfg : (get_display_config st).1 = ⟨DisplayMode.markdown, some p⟩)
    (hok : (display st c none none).1 = Except.ok o) :
    (display st c none none).2.fs = ((get_display_config st).2.fs).append p o := by
  unfold display at hok ⊢
  dsimp only at hok ⊢
  rw [hcfg] at hok ⊢
  dsimp only at hok ⊢
  rw [if_neg (by decide)] at hok ⊢
  cases hb : buildResult (get_display_config st).2.env c with
  | error e =>
    rw [hb] at hok
    simp at hok
  | ok parts =>
    rw [hb] at hok
    dsimp only at hok ⊢
    have ho : joinSep "\n\n" parts = o := by simpa using hok
    rw [ho]

/-- Auxiliary: when the resolved config is python with no output path, the
result of a default-argument `display` call is the joined buffer (or the
first render error). -/
theorem display_python_result (st : ProcState) (c : List Item)
    (hcfg : (get_display_config st).1 = ⟨DisplayMode.python, none⟩) :
    (display st c none none).1 = (match buildResult st.env c with
      | .error e => .error e
      | .ok parts => .ok (joinSep "\n\n" parts)) := by
  unfold display
  dsimp only
  rw [hcfg]
  dsimp only
  rw [if_neg (by decide)]
  rw [get_display_config_env st]
  cases hb : buildResult st.env c <;> rfl

/-- C6: a Figure whose stored path cannot be expressed relative to the
parent directory of the active output path renders, in file-output mode,
to a `ValueError` from `relative_to` (the PathResolutionError of the
spec), at render time; Figure construction itself performs no validation —
it stores path, caption and label verbatim for every input. -/
theorem C6_path_resolution (st : ProcState) (s : String) (f : Figure)
    (hc : st.cache = none) (he : st.env.outputMarkdownPath = some s) (hs : s ≠ "")
    (hrel : relativeTo f.path (FPath.parent (mkPath s)) = none) :
    (display st [Item.figure f] none none).1
      = Except.error (RenderError.valueError "relative_to") ∧
    ∀ p c l, (Figure.mk p c l).path = p ∧ (Figure.mk p c l).caption = c ∧
      (Figure.mk p c l).label = l := by
  have hcfg : (get_display_config st).1 = ⟨DisplayMode.markdown, some (mkPath s)⟩ := by
    simp [get_display_config, hc, computeDisplayConfig_set st.env st.fs s he hs]
  have hf : f.display_markdown st.env
      = Except.error (RenderError.valueError "relative_to") := by
    simp [Figure.display_markdown, he, hrel]
  constructor
  · unfold display
    dsimp only
    rw [hcfg]
    dsimp only
    rw [if_neg (by decide), get_display_config_env st]
    simp [buildResult, renderMarkdownItem, hf]
  · intro p c l
    exact ⟨rfl, rfl, rfl⟩

/-- C6 witness: with output path `"out/doc.md"`, the figure at
`elsewhere/x.png` (not under `out/`) fails at render time with the
`relative_to` ValueError, while its construction stored the path. -/
theorem C6_path_resolution_witness :
    (display ⟨⟨some "out/doc.md", false⟩, none, ⟨[], []⟩⟩
        [Item.figure ⟨["elsewhere", "x.png"], "Cap", none⟩] none none).1
      = Except.error (RenderError.valueError "relative_to") ∧
    (Figure.mk ["elsewhere", "x.png"] "Cap" none).path = ["elsewhere", "x.png"] := by
  have h := C6_path_resolution ⟨⟨some "out/doc.md", false⟩, none, ⟨[], []⟩⟩
    "out/doc.md" ⟨["elsewhere", "x.png"], "Cap", none⟩ rfl rfl (by decide) (by decide)
  exact ⟨h.1, (h.2 ["elsewhere", "x.png"] "Cap" none).1⟩

/-- C7: if rendering any item of a `display` call fails, the call returns
that error and no write happens: every file's contents after the call are
exactly what they were before it (the resolver may at most have created
the empty output file; it never writes content). -/
theorem C7_atomic_abort (st : ProcState) (content : List Item)
    (m : Option DisplayMode) (op : Option FPath) (e : RenderError)
    (herr : (display st content m op).1 = Except.error e) :
    (display st content m op).2.fs.contents = st.fs.contents := by
  have hres := get_display_config_contents st
  rcases hr : display st content m op with ⟨r1, r2⟩
  rw [hr] at herr
  dsimp only at herr ⊢
  unfold display at hr
  dsimp only at hr
  split at hr
  · have h1 := congrArg Prod.fst hr
    dsimp at h1
    rw [← h1] at herr
    exact absurd herr (by simp)
  · split at hr
    · have h2 := congrArg Prod.snd hr
      dsimp at h2
      rw [← h2]
      exact hres
    · split at hr
      · have h1 := congrArg Prod.fst hr
        dsimp at h1
        rw [← h1] at herr
        exact absurd herr (by simp)
      · have h1 := congrArg Prod.fst hr
        dsimp at h1
        rw [← h1] at herr
        exact absurd herr (by simp)

/-- C7 witness: a call whose Figure item fails to relativize aborts with
the ValueError and leaves the pre-existing file content untouched. -/
theorem C7_atomic_abort_witness :
    (display ⟨⟨some "out/doc.md", false⟩, none, ⟨[], [(["out", "doc.md"], "old")]⟩⟩
        [Item.figure ⟨["elsewhere", "x.png"], "Cap", none⟩] none none).2.fs.contents
      = [(["out", "doc.md"], "old")] :=
  C7_atomic_abort ⟨⟨some "out/doc.md", false⟩, none, ⟨[], [(["out", "doc.md"], "old")]⟩⟩
    [Item.figure ⟨["elsewhere", "x.png"], "Cap", none⟩] none none
    (RenderError.valueError "relative_to") rfl

/-- C8: starting from a fresh process state whose output-path variable
holds a non-empty string, each successful `display` call appends its
returned string to that file; two calls leave the file holding the prior
content followed by the first call's string followed by the second's. -/
theorem C8_append_twice (st : ProcState) (s : String) (c1 c2 : List Item)
    (o1 o2 : String)
    (hc : st.cache = none) (he : st.env.outputMarkdownPath = some s) (hs : s ≠ "")
    (h1 : (display st c1 none none).1 = Except.ok o1)
    (h2 : (display (display st c1 none none).2 c2 none none).1 = Except.ok o2) :
    (display (display st c1 none none).2 c2 none none).2.fs.read (mkPath s)
      = (st.fs.read (mkPath s) ++ o1) ++ o2 := by
  have hcfg0 : (get_display_config st).1 = ⟨DisplayMode.markdown, some (mkPath s)⟩ := by
    simp [get_display_config, hc, computeDisplayConfig_set st.env st.fs s he hs]
  have fsA : (display st c1 none none).2.fs
      = ((get_display_config st).2.fs).append (mkPath s) o1 :=
    display_ok_fs st (mkPath s) c1 o1 hcfg0 h1
  have cacheA : (display st c1 none none).2.cache
      = some ⟨DisplayMode.markdown, some (mkPath s)⟩ := by
    rw [display_cache st c1 none none, hcfg0]
  have gA : get_display_config (display st c1 none none).2
      = (⟨DisplayMode.markdown, some (mkPath s)⟩, (display st c1 none none).2) :=
    get_display_config_of_cached _ _ cacheA
  have hcfgA : (get_display_config (display st c1 none none).2).1
      = ⟨DisplayMode.markdown, some (mkPath s)⟩ := by rw [gA]
  have fsB : (display (display st c1 none none).2 c2 none none).2.fs
      = ((get_display_config (display st c1 none none).2).2.fs).append (mkPath s) o2 :=
    display_ok_fs _ (mkPath s) c2 o2 hcfgA h2
  rw [fsB, gA]
  rw [Fs.read_append_self, fsA, Fs.read_append_self]
  have hread : ((get_display_config st).2.fs).read (mkPath s) = st.fs.read (mkPath s) :=
    Fs.read_congr _ _ (get_display_config_contents st) (mkPath s)
  rw [hread]

/-- C8 witness: two concrete text-only calls against `"out.md"` leave the
file holding the concatenation of both returned strings. -/
theorem C8_append_twice_witness :
    (display (display ⟨⟨some "out.md", false⟩, none, ⟨[], []⟩⟩
          [Item.text "a"] none none).2
        [Item.text "b"] none none).2.fs.read (mkPath "out.md")
      = "a\n\n\nb\n\n\n" :=
  C8_append_twice ⟨⟨some "out.md", false⟩, none, ⟨[], []⟩⟩ "out.md"
    [Item.text "a"] [Item.text "b"] "a\n\n\n" "b\n\n\n"
    rfl rfl (by decide) rfl rfl

/-- C9: in auto-detected python mode, calling `display` a second time with
the same arguments returns the same result as the first call: the memoized
config populated by the first call resolves identically, and no state the
renderer reads changes between the calls. -/
theorem C9_deterministic (st : ProcState) (c : List Item)
    (he : st.env.outputMarkdownPath = none)
    (hsl : st.env.streamlitRuntimeExists = false)
    (hc : st.cache = none) :
    (display (display st c none none).2 c none none).1
      = (display st c none none).1 := by
  have hcfg0 : (get_display_config st).1 = ⟨DisplayMode.python, none⟩ := by
    simp [get_display_config, hc, computeDisplayConfig, he, hsl]
  have h1 := display_python_result st c hcfg0
  have cacheA : (display st c none none).2.cache
      = some ⟨DisplayMode.python, none⟩ := by
    rw [display_cache st c none none, hcfg0]
  have hcfgA : (get_display_config (display st c none none).2).1
      = ⟨DisplayMode.python, none⟩ := by
    rw [get_display_config_of_cached _ _ cacheA]
  have h2 := display_python_result (display st c none none).2 c hcfgA
  rw [h1, h2, display_env st c none none]

/-- C9 witness: the two calls at a concrete fresh python-mode state. -/
theorem C9_deterministic_witness :
    (display (display ⟨⟨none, false⟩, none, ⟨[], []⟩⟩ [Item.text "x"] none none).2
        [Item.text "x"] none none).1
      = (display ⟨⟨none, false⟩, none, ⟨[], []⟩⟩ [Item.text "x"] none none).1 :=
  C9_deterministic ⟨⟨none, false⟩, none, ⟨[], []⟩⟩ [Item.text "x"] rfl rfl rfl

end PyForge

